import Mathlib

/-!
Verification of the SignalGenerator Report Client (`callN8N`) against its
specification: ticker normalization, primary/fallback retry, response shape
normalization, and per-record validation, shallowly embedded from
`src/SignalGenerator.tsx` (main revision) and the `part_000` revision.
-/

deriving instance DecidableEq for Except

namespace SignalGen

/-- JavaScript `String.prototype.split(',')` on the character list: splitting
an empty string yields one empty group, matching JS semantics. -/
def splitCommaChars : List Char → List (List Char)
  | [] => [[]]
  | c :: cs =>
    if c = ',' then [] :: splitCommaChars cs
    else
      match splitCommaChars cs with
      | [] => [[c]]
      | g :: gs => (c :: g) :: gs

/-- JS `s.split(',')` lifted to `String`. -/
def jsSplitComma (s : String) : List String :=
  (splitCommaChars s.data).map (fun cs => String.mk cs)

/-- Whitespace recognizer used by JS `trim` (ASCII approximation). -/
def jsIsSpace (c : Char) : Bool :=
  c = ' ' || c = '\t' || c = '\n' || c = '\r'

/-- JS `s.trim()`: drop whitespace from both ends. -/
def jsTrim (s : String) : String :=
  String.mk ((((s.data.dropWhile jsIsSpace).reverse.dropWhile jsIsSpace).reverse))

/-- JS `s.toUpperCase()` (ASCII approximation). -/
def jsToUpper (s : String) : String :=
  String.mk (s.data.map Char.toUpper)

/-- JS `s.includes('.')`. -/
def includesDot (s : String) : Bool :=
  s.data.contains '.'

/-- JS `array.join(',')`. -/
def joinComma : List String → String
  | [] => ""
  | [s] => s
  | s :: rest => s ++ "," ++ joinComma rest

/-! ## Data model

Embeds the TypeScript interfaces of `SignalGenerator.tsx`. Numbers are
modelled as `Int`, JSON field presence as `Option`. JS truthiness on the
fields the code branches on is modelled explicitly (`strTruthy`, `numFalsy`).
-/

/-- TS `interface Payload`. -/
structure Payload where
  tickers : String
  format : String
  timeHorizon : String
  riskTolerance : String
  exchange : String
deriving DecidableEq

/-- TS `interface TradeSetup`. -/
structure TradeSetup where
  entry_zone : Option String := none
  target_1 : Option Int := none
  target_2 : Option Int := none
  stop_loss : Option Int := none
  risk_reward_ratio : Option Int := none
deriving DecidableEq

/-- TS `macd` sub-object of `TechnicalIndicators`. -/
structure Macd where
  macd_line : Option Int := none
  signal_line : Option Int := none
  histogram : Option Int := none
deriving DecidableEq

/-- TS `interface TechnicalIndicators`. -/
structure TechnicalIndicators where
  «20_dma» : Option Int := none
  «50_dma» : Option Int := none
  «200_dma» : Option Int := none
  rsi_14 : Option Int := none
  macd : Option Macd := none
  trend : Option String := none
deriving DecidableEq

/-- TS `interface PriceLevels`. -/
structure PriceLevels where
  «52_week_high» : Option Int := none
  «52_week_low» : Option Int := none
  support : Option Int := none
  resistance : Option Int := none
deriving DecidableEq

/-- TS `interface AnalysisScores`. -/
structure AnalysisScores where
  technical : Option Int := none
  fundamental : Option Int := none
  sentiment : Option Int := none
  total : Option Int := none
deriving DecidableEq

/-- TS `interface PositionSizing`. -/
structure PositionSizing where
  risk_tolerance : Option String := none
  risk_multiplier : Option Int := none
  suggested_allocation : Option String := none
deriving DecidableEq

/-- TS `interface Result`: one per-symbol report record as received from the
service. Every field is optional because records arrive as parsed JSON;
`confidence` is `string | number` in TS, modelled as `String ⊕ Int`. -/
structure Result where
  symbol : Option String := none
  company_name : Option String := none
  current_price : Option Int := none
  price_date : Option String := none
  signal : Option String := none
  confidence : Option (String ⊕ Int) := none
  entry_price : Option Int := none
  target_price : Option Int := none
  stop_loss : Option Int := none
  isInvalid : Option Bool := none
  invalidReason : Option String := none
  error : Option String := none
  details : Option String := none
  price_levels : Option PriceLevels := none
  technical_indicators : Option TechnicalIndicators := none
  trade_setup : Option TradeSetup := none
  analysis_scores : Option AnalysisScores := none
  scores : Option AnalysisScores := none
  position_sizing : Option PositionSizing := none
  summary : Option String := none
  analysis_summary : Option String := none
deriving DecidableEq

/-- The record with no fields set (JS object literal `\x7b\x7d` viewed as a record). -/
def emptyResult : Result := {}

/-- A JSON value appearing as an entry of a `results` array, as the
validation map observes it: `null` (on which reading `r.error` throws a
TypeError) or anything else, viewed as its record fields (a primitive reads
as a record with every field undefined). -/
inductive RVal where
  | null
  | val (r : Result)
deriving DecidableEq

/-- True exactly on the `null` entry. -/
def RVal.isNull : RVal → Bool
  | RVal.null => true
  | RVal.val _ => false

/-- The `results` field of a response object, as the code observes it:
`missing` when the field is absent or falsy (the `if (result.results)` guard
skips), `notArray` when it is truthy but not an array (calling `.map` on it
throws a TypeError), or an actual array of entries (an empty array is
truthy). -/
inductive ResultsField where
  | missing
  | notArray
  | list (elems : List RVal)
deriving DecidableEq

/-- JS truthiness of the `results` field. -/
def resultsTruthy : ResultsField → Bool
  | ResultsField.missing => false
  | ResultsField.notArray => true
  | ResultsField.list _ => true

/-- A non-null JSON value, as far as `callN8N` inspects it: its `results`
field plus its own record fields (`record`); a primitive reads as an object
with every field undefined. -/
structure BodyObj where
  results : ResultsField := ResultsField.missing
  record : Result := emptyResult
deriving DecidableEq

/-- A JSON value as inspected at the top level or as `parsed[0]`: `null`
(reading `.results` on it throws a TypeError; `null?.error` is undefined) or
a non-null value. -/
inductive JsVal where
  | null
  | val (o : BodyObj)
deriving DecidableEq

/-- The two body shapes `callN8N` distinguishes with `Array.isArray`. -/
inductive Parsed where
  | arr (elems : List JsVal)
  | obj (v : JsVal)
deriving DecidableEq

/-- JS truthiness of an optional string field: present and non-empty. -/
def strTruthy : Option String → Bool
  | none => false
  | some s => !(s = "")

/-- JS falsiness of an optional numeric field (`!x || x === 0`):
absent or zero. -/
def numFalsy : Option Int → Bool
  | none => true
  | some v => v = 0

/-! ## Ticker normalization (`SignalGenerator.tsx`, lines 100-107)

`payload.tickers.split(',').map(t => ...).join(',')`.
-/

/-- The `map` lambda: trim and upper-case, then append `.exchange` unless a
dot is already present. -/
def normalizeTicker (exchange : String) (t : String) : String :=
  let trimmed := jsToUpper (jsTrim t)
  if includesDot trimmed then trimmed
  else trimmed ++ "." ++ exchange

/-- The full normalization: split on comma, map, rejoin with `","`. -/
def normalizeTickers (tickers exchange : String) : String :=
  joinComma ((jsSplitComma tickers).map (normalizeTicker exchange))

/-! ## Request construction and the two endpoints (lines 109-117) -/

def primaryUrl : String := "https://anandshinde75.app.n8n.cloud/webhook/signalGenerator"

def fallbackUrl : String := "/webhook/signalGenerator"

/-- The JSON request body (keys `"Ticker "`, `"Time Horizon"`,
`"Risk Tolerance"`, `"Output Format"`). -/
structure RequestBody where
  ticker : String
  timeHorizon : String
  riskTolerance : String
  outputFormat : String
deriving DecidableEq

def requestBody (p : Payload) : RequestBody :=
  { ticker := normalizeTickers p.tickers p.exchange
    timeHorizon := p.timeHorizon
    riskTolerance := p.riskTolerance
    outputFormat := "Detailed" }

/-! ## Per-record validation (lines 182-199) -/

/-- One synthesized invalid record of the error-array branch (lines 164-174). -/
def invalidRecord (errorMsg symbol : String) : Result :=
  { symbol := some (jsTrim symbol)
    current_price := some 0
    signal := some "SELL/AVOID"
    confidence := some (Sum.inl "0%")
    entry_price := some 0
    target_price := some 0
    stop_loss := some 0
    isInvalid := some true
    invalidReason := some ("Invalid ticker: " ++ errorMsg) }

/-- The error-array branch (lines 158-176): one invalid record per normalized
ticker symbol. -/
def synthInvalid (tickers errorMsg : String) : List Result :=
  (jsSplitComma tickers).map (fun symbol => invalidRecord errorMsg symbol)

/-- The validation `map` over `result.results` (lines 184-198): an
error-bearing record keeps its fields but gains `isInvalid` and
`invalidReason` (`r.details || r.error`); a record with absent or zero
`current_price` likewise; anything else is returned as-is. -/
def validateRecord (r : Result) : Result :=
  if strTruthy r.error then
    { r with isInvalid := some true
             invalidReason := some
               (if strTruthy r.details then r.details.getD ""
                else r.error.getD "") }
  else if numFalsy r.current_price then
    { r with isInvalid := some true
             invalidReason := some "Invalid or delisted symbol - no price data available" }
  else r

/-- The validation `map` over a `results` array (lines 184-198): reading
`r.error` on a null entry throws a TypeError; every other entry is validated
as a record. -/
def validateElems : List RVal → Except String (List Result)
  | [] => Except.ok []
  | RVal.null :: _ => Except.error "Cannot read properties of null (reading error)"
  | RVal.val r :: rest =>
      match validateElems rest with
      | Except.error e => Except.error e
      | Except.ok vs => Except.ok (validateRecord r :: vs)

/-- Validation of a whole body object: `if (result.results) result.results =
result.results.map(...)` (lines 183-199). A falsy `results` field skips the
block; a truthy non-array `results` throws at `.map`; a null entry throws
inside the map. -/
def validateBody (b : BodyObj) : Except String BodyObj :=
  match b.results with
  | ResultsField.missing => Except.ok b
  | ResultsField.notArray => Except.error "result.results.map is not a function"
  | ResultsField.list es =>
      match validateElems es with
      | Except.error e => Except.error e
      | Except.ok vs => Except.ok { b with results := ResultsField.list (vs.map RVal.val) }

/-! ## Response processing of one 2xx body (lines 158-202) -/

/-- Process one successfully parsed body: the error-array short-circuit, then
`result = Array.isArray(parsed) ? parsed[0] : parsed` and per-record
validation. An empty array body reaches `result.results` with `result`
undefined and throws a TypeError; a null body, or an array whose first
element is null, likewise throws there (the line-159 check `parsed[0]?.error`
is undefined on both and does not fire); all are caught by the surrounding
try. -/
def processBody (tickers : String) (p : Parsed) : Except String BodyObj :=
  match p with
  | Parsed.arr [] =>
      Except.error "Cannot read properties of undefined (reading results)"
  | Parsed.arr (JsVal.null :: _) =>
      Except.error "Cannot read properties of null (reading results)"
  | Parsed.arr (JsVal.val first :: _) =>
      if strTruthy first.record.error then
        Except.ok { results := ResultsField.list
                      ((synthInvalid tickers (first.record.error.getD "")).map RVal.val)
                    record := emptyResult }
      else
        validateBody first
  | Parsed.obj JsVal.null =>
      Except.error "Cannot read properties of null (reading results)"
  | Parsed.obj (JsVal.val o) => validateBody o

/-! ## One endpoint attempt (lines 128-211)

The transport outcome of a single `fetch` is abstracted as an `Attempt`:
everything up to and including `JSON.parse` is external input.
-/

inductive Attempt where
  /-- The `fetch` call itself rejected (network error). -/
  | netError (msg : String)
  /-- Non-2xx status (`!res.ok`) with the response text. -/
  | httpError (status : Nat) (text : String)
  /-- Success status but empty or whitespace-only body. -/
  | emptyBody
  /-- Success status but `JSON.parse` failed. -/
  | badJson
  /-- Success status with a parsed JSON body. -/
  | parsedOk (p : Parsed)
deriving DecidableEq

/-- Run one attempt: the throws of lines 139, 146, 155 and the body
processing of lines 158-202. -/
def runAttempt (tickers : String) (a : Attempt) : Except String BodyObj :=
  match a with
  | Attempt.netError m => Except.error m
  | Attempt.httpError status text =>
      Except.error ("HTTP " ++ toString status ++ ": " ++
        (if text = "" then "Failed to fetch data" else text))
  | Attempt.emptyBody =>
      Except.error "Empty response from webhook. Make sure your n8n workflow returns data."
  | Attempt.badJson =>
      Except.error "Invalid JSON response from webhook. Check your n8n workflow output."
  | Attempt.parsedOk p => processBody tickers p

/-! ## The full client (lines 98-215)

The network is an oracle `fetch : url → body → Attempt`. The loop over
`[primaryUrl, fallbackUrl]` returns the first success, else throws the last
error (`lastError` is the fallback error when both attempts fail).
-/

def callN8N (p : Payload) (fetch : String → RequestBody → Attempt) :
    Except String BodyObj :=
  match runAttempt (normalizeTickers p.tickers p.exchange)
      (fetch primaryUrl (requestBody p)) with
  | Except.ok r => Except.ok r
  | Except.error _ =>
      runAttempt (normalizeTickers p.tickers p.exchange)
        (fetch fallbackUrl (requestBody p))

end SignalGen

namespace Rev0

open SignalGen

/-- View a top-level array element as an entry of a wrapped `results` array:
null stays null, anything else is seen through its record fields. -/
def toRVal : JsVal → RVal
  | JsVal.null => RVal.null
  | JsVal.val b => RVal.val b.record

/-- Response-shape normalization of the `part_000` revision (lines 29-37):
`data[0]?.results ? data[0] : \x7b results: data \x7d` for arrays (the optional
chaining makes a null or absent first element falsy), `data` when a truthy
`results` field is present, else wrap the flat record as
`\x7b results: [data] \x7d`; reading `data.results` on a null body throws a
TypeError. -/
def normalizeShape (data : Parsed) : Except String BodyObj :=
  match data with
  | Parsed.arr es =>
      match es with
      | JsVal.val first :: _ =>
          if resultsTruthy first.results then Except.ok first
          else Except.ok { results := ResultsField.list (es.map toRVal), record := emptyResult }
      | JsVal.null :: _ =>
          Except.ok { results := ResultsField.list (es.map toRVal), record := emptyResult }
      | [] =>
          Except.ok { results := ResultsField.list (es.map toRVal), record := emptyResult }
  | Parsed.obj JsVal.null =>
      Except.error "Cannot read properties of null (reading results)"
  | Parsed.obj (JsVal.val o) =>
      if resultsTruthy o.results then Except.ok o
      else Except.ok { results := ResultsField.list [RVal.val o.record], record := emptyResult }

end Rev0

section Claims

open SignalGen

/-- The concrete error-array body `[ \x7b error: "bad ticker" \x7d ]`. -/
def errorArrBody : Parsed :=
  Parsed.arr [JsVal.val { record := { emptyResult with error := some "bad ticker" } }]

/-- An oracle whose every request yields the error-array body. -/
def errorArrFetch : String → RequestBody → Attempt :=
  fun _ _ => Attempt.parsedOk errorArrBody

/-- Claim C1, as stated, is false: for ticker input "AAA,BBB" with exchange
"NS", the error-array branch splits the NORMALIZED ticker string, so the two
synthesized records carry symbols "AAA.NS" and "BBB.NS", not "AAA" and
"BBB". -/
theorem C1_symbols_carry_suffix_cex :
    callN8N ⟨"AAA,BBB", "Detailed", "Short-term", "Moderate", "NS"⟩ errorArrFetch =
      Except.ok
        { results := ResultsField.list
            [RVal.val (invalidRecord "bad ticker" "AAA.NS"),
             RVal.val (invalidRecord "bad ticker" "BBB.NS")]
          record := emptyResult } ∧
    (invalidRecord "bad ticker" "AAA.NS").symbol ≠ some "AAA" ∧
    (invalidRecord "bad ticker" "BBB.NS").symbol ≠ some "BBB" := by
  decide

/-- Claim C1 (amended): if the primary attempt parses to an array whose first
element carries the error "bad ticker", then for ticker input "AAA,BBB"
(exchange "NS") `callN8N` returns exactly two records with symbols "AAA.NS"
and "BBB.NS" (the exchange-suffixed tickers), each with price 0, signal
SELL/AVOID, confidence "0%", `isInvalid` true, and an `invalidReason`
containing the service-reported error text. -/
theorem C1_error_array_two_invalid_records (p : Payload)
    (fetch : String → RequestBody → Attempt)
    (hp1 : p.tickers = "AAA,BBB") (hp2 : p.exchange = "NS")
    (hfetch : fetch primaryUrl (requestBody p) = Attempt.parsedOk errorArrBody) :
    callN8N p fetch =
      Except.ok
        { results := ResultsField.list
            [RVal.val
               { symbol := some "AAA.NS", current_price := some 0, signal := some "SELL/AVOID",
                 confidence := some (Sum.inl "0%"), entry_price := some 0, target_price := some 0,
                 stop_loss := some 0, isInvalid := some true,
                 invalidReason := some "Invalid ticker: bad ticker" },
             RVal.val
               { symbol := some "BBB.NS", current_price := some 0, signal := some "SELL/AVOID",
                 confidence := some (Sum.inl "0%"), entry_price := some 0, target_price := some 0,
                 stop_loss := some 0, isInvalid := some true,
                 invalidReason := some "Invalid ticker: bad ticker" }]
          record := emptyResult } := by
  unfold callN8N
  rw [hp1, hp2, hfetch]
  have h : runAttempt (normalizeTickers "AAA,BBB" "NS") (Attempt.parsedOk errorArrBody) =
      Except.ok
        { results := ResultsField.list
            [RVal.val
               { symbol := some "AAA.NS", current_price := some 0, signal := some "SELL/AVOID",
                 confidence := some (Sum.inl "0%"), entry_price := some 0, target_price := some 0,
                 stop_loss := some 0, isInvalid := some true,
                 invalidReason := some "Invalid ticker: bad ticker" },
             RVal.val
               { symbol := some "BBB.NS", current_price := some 0, signal := some "SELL/AVOID",
                 confidence := some (Sum.inl "0%"), entry_price := some 0, target_price := some 0,
                 stop_loss := some 0, isInvalid := some true,
                 invalidReason := some "Invalid ticker: bad ticker" }]
          record := emptyResult } := by decide
  rw [h]

/-- Witness for C1: the amended theorem applied to the concrete oracle. -/
theorem C1_error_array_two_invalid_records_witness :
    callN8N ⟨"AAA,BBB", "Detailed", "Short-term", "Moderate", "NS"⟩ errorArrFetch =
      Except.ok
        { results := ResultsField.list
            [RVal.val
               { symbol := some "AAA.NS", current_price := some 0, signal := some "SELL/AVOID",
                 confidence := some (Sum.inl "0%"), entry_price := some 0, target_price := some 0,
                 stop_loss := some 0, isInvalid := some true,
                 invalidReason := some "Invalid ticker: bad ticker" },
             RVal.val
               { symbol := some "BBB.NS", current_price := some 0, signal := some "SELL/AVOID",
                 confidence := some (Sum.inl "0%"), entry_price := some 0, target_price := some 0,
                 stop_loss := some 0, isInvalid := some true,
                 invalidReason := some "Invalid ticker: bad ticker" }]
          record := emptyResult } :=
  C1_error_array_two_invalid_records ⟨"AAA,BBB", "Detailed", "Short-term", "Moderate", "NS"⟩
    errorArrFetch rfl rfl rfl

/-- Claim C2, as stated, is false: an element containing "." is still trimmed
and upper-cased, so "rel.ns" does not appear in the output as it appeared in
the input. -/
theorem C2_dotted_not_verbatim_cex :
    jsSplitComma "rel.ns" = ["rel.ns"] ∧
    includesDot "rel.ns" = true ∧
    normalizeTickers "rel.ns" "NS" = "REL.NS" ∧
    ("REL.NS" : String) ≠ "rel.ns" := by
  decide

/-- Claim C2 (amended): for every comma-separated element of the ticker input
whose trimmed upper-cased form contains a ".", normalization outputs exactly
that trimmed upper-cased form, with no exchange suffix appended; the full
output joins the per-element results with commas. -/
theorem C2_dotted_element_no_suffix (input exchange t : String)
    (hmem : t ∈ jsSplitComma input)
    (hdot : includesDot (jsToUpper (jsTrim t)) = true) :
    normalizeTicker exchange t = jsToUpper (jsTrim t) ∧
    normalizeTickers input exchange =
      joinComma ((jsSplitComma input).map (normalizeTicker exchange)) := by
  refine ⟨?_, rfl⟩
  unfold normalizeTicker
  simp [hdot]

/-- Witness for C2 (amended), at element "rel.ns". -/
theorem C2_dotted_element_no_suffix_witness :
    normalizeTicker "NS" "rel.ns" = jsToUpper (jsTrim "rel.ns") :=
  (C2_dotted_element_no_suffix "rel.ns" "NS" "rel.ns" (by decide) (by decide)).1

/-- Claim C4: every comma-separated element whose trimmed upper-cased form
contains no "." gains exactly one `.exchange` suffix (the output element is
literally the trimmed upper-cased form followed by one "." and the exchange),
and the normalized elements are rejoined with commas in input order. -/
theorem C4_suffix_appended_once (input exchange t : String)
    (hmem : t ∈ jsSplitComma input)
    (hdot : includesDot (jsToUpper (jsTrim t)) = false) :
    normalizeTicker exchange t = jsToUpper (jsTrim t) ++ "." ++ exchange ∧
    normalizeTickers input exchange =
      joinComma ((jsSplitComma input).map (normalizeTicker exchange)) := by
  refine ⟨?_, rfl⟩
  unfold normalizeTicker
  simp [hdot]

/-- Witness for C4, at element " abc" of input " abc,x.y". -/
theorem C4_suffix_appended_once_witness :
    normalizeTicker "NS" " abc" = jsToUpper (jsTrim " abc") ++ "." ++ "NS" :=
  (C4_suffix_appended_once " abc,x.y" "NS" " abc" (by decide) (by decide)).1

/-- A concrete flat record (a price-bearing report not wrapped in `results`). -/
def flatRecord : Result :=
  { emptyResult with symbol := some "TCS.NS", current_price := some 100, signal := some "BUY" }

/-- Claim C3, as stated, is false for the main revision: `SignalGenerator.tsx`
only computes `Array.isArray(parsed) ? parsed[0] : parsed`, so a flat record
not wrapped in `results` is returned as-is, with NO `results` list (the
validation block is skipped because `result.results` is undefined). -/
theorem C3_flat_record_not_wrapped_cex :
    processBody "TCS.NS" (Parsed.obj (JsVal.val { record := flatRecord })) =
      Except.ok { results := ResultsField.missing, record := flatRecord } ∧
    (BodyObj.results { results := ResultsField.missing, record := flatRecord }) =
      ResultsField.missing := by
  decide

/-- Claim C3 (amended): the three-shape normalization is the `part_000`
revision's. There, a bare object with a `results` field and a one-element
array wrapping such an object both normalize to that object, and a flat
record normalizes to a Response whose `results` list is the singleton of that
record. In the main revision (`SignalGenerator.tsx`) only the first two
shapes yield a `results` list: a flat record passes through unchanged with no
`results` list. -/
theorem C3_shape_normalization (rs : List RVal) (r : Result) (tk : String) :
    Rev0.normalizeShape (Parsed.obj (JsVal.val ⟨ResultsField.list rs, r⟩)) =
      Except.ok ⟨ResultsField.list rs, r⟩ ∧
    Rev0.normalizeShape (Parsed.arr [JsVal.val ⟨ResultsField.list rs, r⟩]) =
      Except.ok ⟨ResultsField.list rs, r⟩ ∧
    Rev0.normalizeShape (Parsed.obj (JsVal.val ⟨ResultsField.missing, r⟩)) =
      Except.ok ⟨ResultsField.list [RVal.val r], emptyResult⟩ ∧
    processBody tk (Parsed.obj (JsVal.val ⟨ResultsField.missing, r⟩)) =
      Except.ok ⟨ResultsField.missing, r⟩ := by
  refine ⟨?_, ?_, ?_, ?_⟩
  · simp [Rev0.normalizeShape, resultsTruthy]
  · simp [Rev0.normalizeShape, resultsTruthy]
  · simp [Rev0.normalizeShape, resultsTruthy]
  · simp [processBody, validateBody]

/-- An oracle failing on both endpoints with distinct network errors. -/
def bothFailFetch : String → RequestBody → Attempt :=
  fun url _ =>
    if url = primaryUrl then Attempt.netError "primary down"
    else Attempt.netError "fallback down"

/-- Claim C5: when both the primary and the fallback attempt fail, `callN8N`
fails with the error of the fallback (second) attempt — the last encountered
error — and its outcome depends only on the two attempts (primary and
fallback with the one shared request body): no third attempt exists. -/
theorem C5_both_fail_last_error (p : Payload) (fetch : String → RequestBody → Attempt)
    (e1 e2 : String)
    (h1 : runAttempt (normalizeTickers p.tickers p.exchange)
      (fetch primaryUrl (requestBody p)) = Except.error e1)
    (h2 : runAttempt (normalizeTickers p.tickers p.exchange)
      (fetch fallbackUrl (requestBody p)) = Except.error e2) :
    callN8N p fetch = Except.error e2 ∧
    ∀ g : String → RequestBody → Attempt,
      g primaryUrl (requestBody p) = fetch primaryUrl (requestBody p) →
      g fallbackUrl (requestBody p) = fetch fallbackUrl (requestBody p) →
      callN8N p g = callN8N p fetch := by
  constructor
  · unfold callN8N
    rw [h1]
    exact h2
  · intro g hg1 hg2
    unfold callN8N
    rw [hg1, hg2]

/-- Witness for C5: both endpoints fail with network errors; the reported
failure is the fallback's. -/
theorem C5_both_fail_last_error_witness :
    callN8N ⟨"ABC", "Detailed", "Short-term", "Moderate", "NS"⟩ bothFailFetch =
      Except.error "fallback down" :=
  (C5_both_fail_last_error ⟨"ABC", "Detailed", "Short-term", "Moderate", "NS"⟩
    bothFailFetch "primary down" "fallback down" (by decide) (by decide)).1

/-- An oracle whose primary endpoint returns HTTP 500 and whose fallback
succeeds with an empty `results` list. -/
def fallbackOkFetch : String → RequestBody → Attempt :=
  fun url _ =>
    if url = primaryUrl then Attempt.httpError 500 ""
    else Attempt.parsedOk (Parsed.obj (JsVal.val { results := ResultsField.list [] }))

/-- Claim C6: when the primary attempt fails and the fallback attempt
succeeds, `callN8N` returns the fallback's normalized Response and raises no
error; both attempts are issued with the one shared request body
(`requestBody p`), and the outcome depends on nothing else. -/
theorem C6_fallback_success (p : Payload) (fetch : String → RequestBody → Attempt)
    (e : String) (r : BodyObj)
    (h1 : runAttempt (normalizeTickers p.tickers p.exchange)
      (fetch primaryUrl (requestBody p)) = Except.error e)
    (h2 : runAttempt (normalizeTickers p.tickers p.exchange)
      (fetch fallbackUrl (requestBody p)) = Except.ok r) :
    callN8N p fetch = Except.ok r ∧
    ∀ g : String → RequestBody → Attempt,
      g primaryUrl (requestBody p) = fetch primaryUrl (requestBody p) →
      g fallbackUrl (requestBody p) = fetch fallbackUrl (requestBody p) →
      callN8N p g = Except.ok r := by
  have hmain : callN8N p fetch = Except.ok r := by
    unfold callN8N
    rw [h1]
    exact h2
  refine ⟨hmain, ?_⟩
  intro g hg1 hg2
  unfold callN8N
  rw [hg1, hg2]
  unfold callN8N at hmain
  exact hmain

/-- Witness for C6: primary returns HTTP 500, fallback succeeds, and the
fallback's Response is returned. -/
theorem C6_fallback_success_witness :
    callN8N ⟨"ABC", "Detailed", "Short-term", "Moderate", "NS"⟩ fallbackOkFetch =
      Except.ok { results := ResultsField.list [], record := emptyResult } :=
  (C6_fallback_success ⟨"ABC", "Detailed", "Short-term", "Moderate", "NS"⟩
    fallbackOkFetch "HTTP 500: Failed to fetch data"
    { results := ResultsField.list [], record := emptyResult }
    (by decide) (by decide)).1

/-- Claim C7: per-record validation marks a record without an `error` field
and with absent or zero `current_price` invalid with exactly the reason
"Invalid or delisted symbol - no price data available", preserving all other
fields; a record without an `error` field and a non-zero price passes through
completely unmodified, so its `isInvalid` stays unset. -/
theorem C7_price_validation (r : Result) (he : r.error = none) :
    ((r.current_price = none ∨ r.current_price = some 0) →
      validateRecord r = { r with
        isInvalid := some true
        invalidReason := some "Invalid or delisted symbol - no price data available" }) ∧
    (∀ v : Int, r.current_price = some v → v ≠ 0 →
      validateRecord r = r ∧ (r.isInvalid = none → (validateRecord r).isInvalid = none)) := by
  have hs : strTruthy r.error = false := by rw [he]; rfl
  constructor
  · intro hp
    have hn : numFalsy r.current_price = true := by
      rcases hp with hp | hp <;> rw [hp] <;> rfl
    simp [validateRecord, hs, hn]
  · intro v hv hvne
    have hn : numFalsy r.current_price = false := by
      rw [hv]; simp [numFalsy, hvne]
    have hr : validateRecord r = r := by
      simp [validateRecord, hs, hn]
    exact ⟨hr, fun hinv => by rw [hr]; exact hinv⟩

/-- Witness for C7: a record with price 0 and no error is marked invalid with
the fixed reason; all other fields are untouched. -/
theorem C7_price_validation_witness :
    validateRecord { emptyResult with symbol := some "XYZ.NS", current_price := some 0 } =
      { emptyResult with
        symbol := some "XYZ.NS"
        current_price := some 0
        isInvalid := some true
        invalidReason := some "Invalid or delisted symbol - no price data available" } :=
  (C7_price_validation { emptyResult with symbol := some "XYZ.NS", current_price := some 0 }
    rfl).1 (Or.inr rfl)

/-- Claim C8, as stated, is false: a record whose `error` field is the empty
string carries an `error` field, yet JS truthiness skips the error branch, so
with a non-zero price the record passes through with `isInvalid` unset. -/
theorem C8_empty_error_not_flagged_cex :
    ({ emptyResult with error := some "", current_price := some 100 } : Result).error.isSome
      = true ∧
    validateRecord { emptyResult with error := some "", current_price := some 100 } =
      { emptyResult with error := some "", current_price := some 100 } ∧
    (validateRecord { emptyResult with error := some "", current_price := some 100 }).isInvalid
      = none := by
  decide

/-- Claim C8 (amended): every record carrying a NON-EMPTY `error` field is
returned with `isInvalid` true and all other fields preserved; its
`invalidReason` is the `details` field when that is present and non-empty,
otherwise the error text. -/
theorem C8_error_record_flagged (r : Result) (e : String)
    (he : r.error = some e) (hne : e ≠ "") :
    (∀ d : String, r.details = some d → d ≠ "" →
      validateRecord r = { r with isInvalid := some true, invalidReason := some d }) ∧
    ((r.details = none ∨ r.details = some "") →
      validateRecord r = { r with isInvalid := some true, invalidReason := some e }) := by
  constructor
  · intro d hd hdne
    simp [validateRecord, strTruthy, he, hne, hd, hdne]
  · intro hd
    rcases hd with hd | hd <;> simp [validateRecord, strTruthy, he, hne, hd]

/-- Witness for C8 (amended): error "not found" with details "symbol
delisted" yields `invalidReason` "symbol delisted" (details preferred). -/
theorem C8_error_record_flagged_witness :
    validateRecord { emptyResult with error := some "not found", details := some "symbol delisted" } =
      { emptyResult with
        error := some "not found"
        details := some "symbol delisted"
        isInvalid := some true
        invalidReason := some "symbol delisted" } :=
  (C8_error_record_flagged
    { emptyResult with error := some "not found", details := some "symbol delisted" }
    "not found" rfl (by decide)).1 "symbol delisted" rfl (by decide)

/-- Claim C9: for an object `B` with a `results` field and no `error` field,
processing `B` and processing the one-element array `[B]` through the main
revision's shape normalization and per-record validation yield identical
Responses. -/
theorem C9_wrap_roundtrip (tk : String) (b : BodyObj)
    (hres : resultsTruthy b.results = true) (he : b.record.error = none) :
    processBody tk (Parsed.obj (JsVal.val b)) = processBody tk (Parsed.arr [JsVal.val b]) := by
  have hs : strTruthy b.record.error = false := by rw [he]; rfl
  simp [processBody, hs]

/-- Witness for C9, at a body with an empty `results` list. -/
theorem C9_wrap_roundtrip_witness :
    processBody "X.NS"
        (Parsed.obj (JsVal.val { results := ResultsField.list [], record := emptyResult })) =
      processBody "X.NS"
        (Parsed.arr [JsVal.val { results := ResultsField.list [], record := emptyResult }]) :=
  C9_wrap_roundtrip "X.NS" { results := ResultsField.list [], record := emptyResult }
    (by decide) rfl

/-- An oracle whose primary endpoint parses to the empty array and whose
fallback succeeds with an empty `results` list. -/
def emptyArrFetch : String → RequestBody → Attempt :=
  fun url _ =>
    if url = primaryUrl then Attempt.parsedOk (Parsed.arr [])
    else Attempt.parsedOk (Parsed.obj (JsVal.val { results := ResultsField.list [] }))

/-- An oracle whose primary endpoint parses to the null body and whose
fallback succeeds with an empty `results` list. -/
def nullBodyFetch : String → RequestBody → Attempt :=
  fun url _ =>
    if url = primaryUrl then Attempt.parsedOk (Parsed.obj JsVal.null)
    else Attempt.parsedOk (Parsed.obj (JsVal.val { results := ResultsField.list [] }))

/-- Claim C10, as stated, is false: a 2xx response with the non-empty, valid
JSON body `[]` also sends `callN8N` to the fallback (reading `results` of the
undefined first element throws), and so does the 2xx body `null` (reading
`results` of null throws), so the fallback is not tried ONLY for transport,
non-2xx, empty-body, or JSON-parse failures. Here the primary attempt parses
to `[]` (respectively `null`) yet the returned Response is the fallback's. -/
theorem C10_empty_array_falls_back_cex :
    emptyArrFetch primaryUrl
        (requestBody ⟨"ABC", "Detailed", "Short-term", "Moderate", "NS"⟩) =
      Attempt.parsedOk (Parsed.arr []) ∧
    callN8N ⟨"ABC", "Detailed", "Short-term", "Moderate", "NS"⟩ emptyArrFetch =
      Except.ok { results := ResultsField.list [], record := emptyResult } ∧
    nullBodyFetch primaryUrl
        (requestBody ⟨"ABC", "Detailed", "Short-term", "Moderate", "NS"⟩) =
      Attempt.parsedOk (Parsed.obj JsVal.null) ∧
    callN8N ⟨"ABC", "Detailed", "Short-term", "Moderate", "NS"⟩ nullBodyFetch =
      Except.ok { results := ResultsField.list [], record := emptyResult } := by
  decide

/-- The parsed 2xx bodies whose processing throws inside the validation block
(lines 183-199): a truthy non-array `results` field (`.map` is not a
function) or a null entry in the `results` array (reading `r.error`). -/
def bodyObjThrows (b : BodyObj) : Bool :=
  match b.results with
  | ResultsField.missing => false
  | ResultsField.notArray => true
  | ResultsField.list es => es.any RVal.isNull

/-- The parsed 2xx bodies whose processing throws somewhere in lines 178-199:
the empty array and the null body or null first element (reading `results` of
undefined or null at line 183), and otherwise — unless the line-159
error-array short-circuit returns first — whatever the validation block
throws on. -/
def bodyThrows : Parsed → Bool
  | Parsed.arr [] => true
  | Parsed.arr (JsVal.null :: _) => true
  | Parsed.arr (JsVal.val first :: _) =>
      if strTruthy first.record.error then false else bodyObjThrows first
  | Parsed.obj JsVal.null => true
  | Parsed.obj (JsVal.val o) => bodyObjThrows o

/-- The validation map throws exactly when the `results` array has a null
entry. -/
theorem validateElems_error_iff (es : List RVal) :
    (∃ err, validateElems es = Except.error err) ↔ es.any RVal.isNull = true := by
  induction es with
  | nil => simp [validateElems]
  | cons v vs ih =>
    cases v with
    | null => simp [validateElems, RVal.isNull]
    | val r =>
      simp only [validateElems, List.any_cons, RVal.isNull, Bool.false_or]
      rw [← ih]
      constructor
      · rintro ⟨err, hh⟩
        cases hv : validateElems vs with
        | error e2 => exact ⟨e2, rfl⟩
        | ok os => rw [hv] at hh; exact absurd hh (by simp)
      · rintro ⟨err, hh⟩
        exact ⟨err, by rw [hh]⟩

/-- Validation of a whole body object throws exactly as `bodyObjThrows`
says. -/
theorem validateBody_error_iff (b : BodyObj) :
    (∃ err, validateBody b = Except.error err) ↔ bodyObjThrows b = true := by
  obtain ⟨rf, r⟩ := b
  cases rf with
  | missing => simp [validateBody, bodyObjThrows]
  | notArray => simp [validateBody, bodyObjThrows]
  | list es =>
    simp only [validateBody, bodyObjThrows]
    rw [← validateElems_error_iff]
    constructor
    · rintro ⟨err, hh⟩
      cases hv : validateElems es with
      | error e2 => exact ⟨e2, rfl⟩
      | ok os => rw [hv] at hh; exact absurd hh (by simp)
    · rintro ⟨err, hh⟩
      exact ⟨err, by rw [hh]⟩

/-- Claim C10 (amended): a 2xx body that is an array whose first element
carries a non-empty `error` field is treated as success: `callN8N` returns
the synthesized invalid-record Response and never consults the fallback; and
an attempt fails (sending the client to the fallback) exactly for transport
errors, non-2xx statuses, empty bodies, JSON-parse failures, or the parsed
2xx bodies whose processing throws: the null body, the empty array, an array
whose first element is null, a truthy non-array `results` field, or a
`results` array containing a null entry (`bodyThrows`). -/
theorem C10_error_array_success (p : Payload) (fetch : String → RequestBody → Attempt)
    (first : BodyObj) (rest : List JsVal) (e : String)
    (hfetch : fetch primaryUrl (requestBody p) =
      Attempt.parsedOk (Parsed.arr (JsVal.val first :: rest)))
    (herr : first.record.error = some e) (hne : e ≠ "") :
    callN8N p fetch =
      Except.ok
        { results := ResultsField.list
            ((synthInvalid (normalizeTickers p.tickers p.exchange) e).map RVal.val)
          record := emptyResult } ∧
    (∀ g : String → RequestBody → Attempt,
      g primaryUrl (requestBody p) = fetch primaryUrl (requestBody p) →
      callN8N p g = callN8N p fetch) ∧
    (∀ (tk : String) (a : Attempt),
      (∃ err, runAttempt tk a = Except.error err) ↔
        (match a with
         | Attempt.parsedOk pb => bodyThrows pb = true
         | _ => True)) := by
  have hok : runAttempt (normalizeTickers p.tickers p.exchange)
      (fetch primaryUrl (requestBody p)) =
      Except.ok
        { results := ResultsField.list
            ((synthInvalid (normalizeTickers p.tickers p.exchange) e).map RVal.val)
          record := emptyResult } := by
    rw [hfetch]
    simp only [runAttempt, processBody]
    rw [herr]
    simp [strTruthy, hne]
  refine ⟨?_, ?_, ?_⟩
  · unfold callN8N
    rw [hok]
  · intro g hg
    unfold callN8N
    rw [hg, hok]
  · intro tk a
    cases a with
    | netError m => simp [runAttempt]
    | httpError s t => simp [runAttempt]
    | emptyBody => simp [runAttempt]
    | badJson => simp [runAttempt]
    | parsedOk pb =>
      cases pb with
      | arr es =>
        cases es with
        | nil => simp [runAttempt, processBody, bodyThrows]
        | cons v vs =>
          cases v with
          | null => simp [runAttempt, processBody, bodyThrows]
          | val f =>
            simp only [runAttempt, processBody, bodyThrows]
            by_cases hf : strTruthy f.record.error = true
            · simp [hf]
            · simp only [hf, Bool.false_eq_true, if_false]
              exact validateBody_error_iff f
      | obj v =>
        cases v with
        | null => simp [runAttempt, processBody, bodyThrows]
        | val o =>
          simp only [runAttempt, processBody, bodyThrows]
          exact validateBody_error_iff o

/-- An oracle whose every request yields an error-array body with error
"oops". -/
def oopsArrFetch : String → RequestBody → Attempt :=
  fun _ _ =>
    Attempt.parsedOk
      (Parsed.arr [JsVal.val { record := { emptyResult with error := some "oops" } }])

/-- Witness for C10 (amended): the primary parses to an error array and the
synthesized Response is returned. -/
theorem C10_error_array_success_witness :
    callN8N ⟨"AAA", "Detailed", "Short-term", "Moderate", "NS"⟩ oopsArrFetch =
      Except.ok
        { results := ResultsField.list
            ((synthInvalid (normalizeTickers "AAA" "NS") "oops").map RVal.val)
          record := emptyResult } :=
  (C10_error_array_success ⟨"AAA", "Detailed", "Short-term", "Moderate", "NS"⟩ oopsArrFetch
    { record := { emptyResult with error := some "oops" } } [] "oops"
    rfl rfl (by decide)).1

end Claims
